import Mathlib

/-!
Shallow embedding, in Lean 4, of the single source file `app.py` of this
repository (a Streamlit tool: map click → nearby companies → INPI annual
statements as a ZIP), together with theorems settling the specification
claims about it.

Conventions of the embedding:
* Python strings become `String`; `None`-able values become `Option`.
* Python truthiness on strings (`x or y`) becomes `pyStrOr`.
* The network is an explicit oracle parameter (a function from a request
  index, and where relevant a bearer token, to an outcome), so that each
  HTTP-performing function is a pure function of its oracle.
* `requests` exceptions and `RuntimeError`s both become `Except String`.
* Floating point numbers become real numbers `ℝ` for the numeric claims.
-/

/-- Python `text[:n] + ("…" if len(text) > n else "")` — the `_short`
truncation helper of `app.py` (its `or ""` coalescing is the identity on
`String` inputs, which is what every call site passes). -/
def _short (text : String) (n : Nat) : String :=
  text.take n ++ (if n < text.length then "…" else "")

/-- Python `x or y` on strings: `y` when `x` is falsy (empty), else `x`. -/
def pyStrOr (x y : String) : String :=
  if x = "" then y else x

/-- Python `o or ""` applied to an optional string field (`dict.get`). -/
def optS (o : Option String) : String :=
  o.getD ""

/-- Python `o or d` on an optional string: `None` and `""` both give `d`. -/
def pyOrOpt (o : Option String) (d : String) : String :=
  pyStrOr (optS o) d

/-- Python `s.strip()`: drop leading and trailing whitespace. -/
def pyStrip (s : String) : String :=
  String.mk (((s.toList.dropWhile Char.isWhitespace).reverse.dropWhile
    Char.isWhitespace).reverse)

/-- `only_digits` of `app.py`: strip the string, then drop every
non-digit character (`re.sub(r"\D", "", s.strip())`). -/
def only_digits (s : String) : String :=
  String.mk ((pyStrip s).toList.filter fun c => c.isDigit)

/-- Does `needle` match at the head of `hay`? (Helper for the Python
substring test `needle in str(e)`.) -/
def matchesAt : List Char → List Char → Bool
  | [], _ => true
  | _ :: _, [] => false
  | a :: as, b :: bs => a == b && matchesAt as bs

/-- Does `needle` occur (contiguously) anywhere in `hay`? -/
def occursIn (needle : List Char) : List Char → Bool
  | [] => matchesAt needle []
  | h :: t => matchesAt needle (h :: t) || occursIn needle t

/-- Python `needle in hay` on strings. -/
def strContains (needle hay : String) : Bool :=
  occursIn needle.toList hay.toList

/-!  HTTP fetcher layer (`get_json`, `post_json`, `download_bytes`). -/

/-- One HTTP response as seen by the fetchers of `app.py`:
`status` is `r.status_code`; `contentTypeJson` is
`"application/json" in (r.headers.get("content-type") or "").lower()`;
`jsonParse` is the result of `r.json()` (`some` = parse succeeded, the
parsed payload being carried as its textual form); `text` is `r.text`;
`content` is `r.content` (bytes). -/
structure HttpResponse where
  status : Nat
  contentTypeJson : Bool
  jsonParse : Option String
  text : String
  content : List Nat
deriving DecidableEq

/-- The statuses `app.py` treats as transient: `(429, 500, 502, 503, 504)`. -/
def transientStatuses : List Nat := [429, 500, 502, 503, 504]

/-- `payload` as computed at the top of `get_json`/`post_json`:
`r.json()` when the content type declared JSON and parsing succeeded,
otherwise `None`. -/
def responsePayload (r : HttpResponse) : Option String :=
  if r.contentTypeJson then r.jsonParse else none

/-- The body of one attempt of `get_json url params` in `app.py`, acting on
the outcome of `requests.get` (`.error` = connection-level exception). -/
def get_json_body (url params : String) (resp : Except String HttpResponse) :
    Except String String :=
  match resp with
  | .error e => .error e
  | .ok r =>
    let msg := match responsePayload r with
      | some p => p
      | none => _short r.text 900
    if r.status ∈ transientStatuses then
      .error s!"Transient HTTP {r.status} on {url} params={params} body={msg}"
    else if 400 ≤ r.status then
      .error s!"HTTP {r.status} on {url} params={params} body={msg}"
    else
      match responsePayload r with
      | some p => .ok p
      | none =>
        match r.jsonParse with
        | some j => .ok j
        | none => .error s!"JSONDecodeError on {url}"

/-- The body of one attempt of `post_json url` in `app.py` (identical to
`get_json` except that the error text carries no `params=`). -/
def post_json_body (url : String) (resp : Except String HttpResponse) :
    Except String String :=
  match resp with
  | .error e => .error e
  | .ok r =>
    let msg := match responsePayload r with
      | some p => p
      | none => _short r.text 900
    if r.status ∈ transientStatuses then
      .error s!"Transient HTTP {r.status} on {url} body={msg}"
    else if 400 ≤ r.status then
      .error s!"HTTP {r.status} on {url} body={msg}"
    else
      match responsePayload r with
      | some p => .ok p
      | none =>
        match r.jsonParse with
        | some j => .ok j
        | none => .error s!"JSONDecodeError on {url}"

/-- The body of one attempt of `download_bytes url` in `app.py`. -/
def download_bytes_body (url : String) (resp : Except String HttpResponse) :
    Except String (List Nat) :=
  match resp with
  | .error e => .error e
  | .ok r =>
    if r.status ∈ transientStatuses then
      .error s!"Transient download HTTP {r.status} for {url}"
    else if 400 ≤ r.status then
      .error s!"Download HTTP {r.status} for {url} body={_short r.text 900}"
    else
      .ok r.content

/-- `tenacity.wait_exponential(multiplier, min, max)` evaluated at a 1-based
attempt number: `max(max(0, min), min(multiplier * 2 ** attempt_number, max))`
seconds. -/
def waitExp (multiplier mn mx : ℚ) (attemptNumber : Nat) : ℚ :=
  max (max 0 mn) (min (multiplier * 2 ^ attemptNumber) mx)

/-- The retry loop of `tenacity.retry(stop=stop_after_attempt(·),
wait=wait_exponential(min=1, max=10), reraise=True)`: run attempt
`attempt`; on any raised exception, if attempts remain, sleep the
exponential-backoff delay and retry, else reraise the last exception.
Returns (outcome, number of the last attempt performed, list of back-off
delays slept). `tenacity` retries on *every* exception (its default retry
predicate), which this loop mirrors. -/
def retryGo (f : Nat → Except String α) : Nat → Nat → Except String α × Nat × List ℚ
  | attempt, 0 => (f attempt, attempt, [])
  | attempt, 1 => (f attempt, attempt, [])
  | attempt, left + 2 =>
    match f attempt with
    | .ok v => (.ok v, attempt, [])
    | .error _ =>
      let r := retryGo f (attempt + 1) (left + 1)
      (r.1, r.2.1, waitExp 1 1 10 attempt :: r.2.2)

/-- `@retry(stop=stop_after_attempt(4), wait=wait_exponential(min=1, max=10),
reraise=True)` applied to a one-attempt body: up to 4 attempts, 1-based. -/
def tenacity4 (f : Nat → Except String α) : Except String α × Nat × List ℚ :=
  retryGo f 1 4

/-- `get_json` of `app.py`: the retry wrapper around `get_json_body`, with
the network modelled as an oracle from the attempt number to the outcome of
`requests.get`. -/
def get_json (url params : String) (net : Nat → Except String HttpResponse) :
    Except String String × Nat × List ℚ :=
  tenacity4 (fun k => get_json_body url params (net k))

/-- `post_json` of `app.py`: the retry wrapper around `post_json_body`. -/
def post_json (url : String) (net : Nat → Except String HttpResponse) :
    Except String String × Nat × List ℚ :=
  tenacity4 (fun k => post_json_body url (net k))

/-- `download_bytes` of `app.py`: the retry wrapper around
`download_bytes_body`. -/
def download_bytes (url : String) (net : Nat → Except String HttpResponse) :
    Except String (List Nat) × Nat × List ℚ :=
  tenacity4 (fun k => download_bytes_body url (net k))

/-- `Except.isError`-style discriminator used to phrase "this attempt
raised". -/
def isErr : Except String α → Bool
  | .error _ => true
  | .ok _ => false

/-!  INPI authentication and authenticated endpoints. -/

/-- The parsed body of a successful `POST /api/sso/login` (`{token: "..."}`);
`token` is `data.get("token")`. -/
structure LoginResp where
  token : Option String
deriving DecidableEq

/-- `inpi_login` of `app.py`, over an oracle `post` standing for the
`post_json` call to the SSO endpoint. Besides the outcome it returns the
number of network (`post_json`) invocations performed, to express the
fail-fast-before-any-network-call property. -/
def inpi_login (username password : String) (post : Unit → Except String LoginResp) :
    Except String String × Nat :=
  if username = "" ∨ password = "" then
    (.error "Secrets INPI manquants : INPI_USERNAME / INPI_PASSWORD", 0)
  else
    match post () with
    | .error e => (.error e, 1)
    | .ok data =>
      let token := pyStrip (optS data.token)
      if token = "" then
        (.error "Login INPI OK mais token absent dans la réponse.", 1)
      else
        (.ok token, 1)

/-- `st.session_state` as far as the INPI code touches it: the cached
bearer token (`st.session_state["inpi_token"]`). -/
structure Session where
  inpi_token : Option String
deriving DecidableEq

/-- The session plus instrumentation counters: how many `inpi_login`
invocations and how many authenticated fetch invocations have been
performed so far. -/
structure World where
  session : Session
  logins : Nat
  fetches : Nat
deriving DecidableEq

/-- The oracles behind the INPI-authenticated calls: `login i` is the
outcome of the `i`-th `inpi_login`; `fetchAtt i tok` (resp. `fetchPdf i
tok`) is the outcome of the `i`-th authenticated fetch when performed with
bearer token `tok` (a `get_json` on the attachments route, resp. a
`download_bytes` on the bilan route). -/
structure AuthEnv where
  login : Nat → Except String String
  fetchAtt : Nat → String → Except String String
  fetchPdf : Nat → String → Except String (List Nat)

/-- `get_inpi_token` of `app.py`: return the cached token unless `force`
is set or the cached value is falsy (`None` or `""`), in which case
`inpi_login` is performed and its token cached. -/
def get_inpi_token (env : AuthEnv) (force : Bool) (w : World) :
    Except String String × World :=
  let doLogin : Except String String × World :=
    match env.login w.logins with
    | .error e => (.error e, { w with logins := w.logins + 1 })
    | .ok t =>
      (.ok t, { w with session := ⟨some t⟩, logins := w.logins + 1 })
  match w.session.inpi_token with
  | none => doLogin
  | some t => if force || t = "" then doLogin else (.ok t, w)

/-- One attempt of the `try:` body of `inpi_get_attachments`: evaluate
`inpi_headers()` (which may log in) then perform the authenticated
`get_json`. -/
def tryFetchAtt (env : AuthEnv) (w : World) : Except String String × World :=
  match get_inpi_token env false w with
  | (.error e, w1) => (.error e, w1)
  | (.ok tok, w1) =>
    (env.fetchAtt w1.fetches tok, { w1 with fetches := w1.fetches + 1 })

/-- One attempt of the `try:` body of `inpi_download_bilan_pdf`. -/
def tryFetchPdf (env : AuthEnv) (w : World) : Except String (List Nat) × World :=
  match get_inpi_token env false w with
  | (.error e, w1) => (.error e, w1)
  | (.ok tok, w1) =>
    (env.fetchPdf w1.fetches tok, { w1 with fetches := w1.fetches + 1 })

/-- `inpi_get_attachments` of `app.py`: perform the authenticated call; on
a `RuntimeError` whose text contains `"HTTP 401"`, clear the cached token
and retry the call exactly once; any other error propagates. -/
def inpi_get_attachments (env : AuthEnv) (w : World) : Except String String × World :=
  match tryFetchAtt env w with
  | (.ok v, w1) => (.ok v, w1)
  | (.error e, w1) =>
    if strContains "HTTP 401" e then
      tryFetchAtt env { w1 with session := ⟨none⟩ }
    else
      (.error e, w1)

/-- `inpi_download_bilan_pdf` of `app.py`: same one-shot relogin-and-retry
policy, the 401 test being `"HTTP 401" in str(e) or "Download HTTP 401" in
str(e)`. -/
def inpi_download_bilan_pdf (env : AuthEnv) (w : World) :
    Except String (List Nat) × World :=
  match tryFetchPdf env w with
  | (.ok v, w1) => (.ok v, w1)
  | (.error e, w1) =>
    if strContains "HTTP 401" e || strContains "Download HTTP 401" e then
      tryFetchPdf env { w1 with session := ⟨none⟩ }
    else
      (.error e, w1)

/-!  Company search (`search_companies_by_cp`) and the download guard. -/

/-- The query parameters `search_companies_by_cp` sends to the registry
search endpoint (`code_naf` being present only when non-empty). -/
structure SearchParams where
  code_postal : String
  page : Int
  per_page : Int
  code_naf : Option String
deriving DecidableEq

/-- The `params` dict built by `search_companies_by_cp`, after the clamp
`per_page = max(1, min(int(per_page), 25))`. -/
def search_params (code_postal code_naf : String) (per_page page : Int) :
    SearchParams :=
  { code_postal := code_postal
    page := page
    per_page := max 1 (min per_page 25)
    code_naf := if code_naf = "" then none else some code_naf }

/-- `search_companies_by_cp` of `app.py`, the `get_json` call abstracted
as an oracle from the sent parameters to the outcome. -/
def search_companies_by_cp (net : SearchParams → Except String String)
    (code_postal code_naf : String) (per_page page : Int) :
    Except String String :=
  net (search_params code_postal code_naf per_page page)

/-- `dl_disabled` of `app.py`: the ZIP-build button is disabled when
nothing is selected or either INPI secret is missing. -/
def dl_disabled (numSelected : Nat) (username password : String) : Bool :=
  (numSelected == 0) || (username == "") || (password == "")

/-!  Candidate rows, geocoding, haversine distance and the ranked output
(the body of the "Trouver les 10 entreprises les plus proches" handler). -/

/-- One raw result entry of the company-search response, with every field
the handler reads (each read defensively via `dict.get`). -/
structure RawResult where
  siren : Option String
  denomination : Option String
  nom_complet : Option String
  nom : Option String
  adresse : Option String
  adresse_complete : Option String
  ville : Option String
  commune : Option String
deriving DecidableEq

/-- One row appended to `rows` by the handler. -/
structure Row where
  siren : String
  denomination : String
  adresse : String
  ville : String
  full_addr : String
deriving DecidableEq

/-- The row the handler builds from one raw search result (given the
detected postal code `cp`), mirroring the `or`-chains of `app.py`. -/
def mkRow (cp : String) (r : RawResult) : Row :=
  let siren := only_digits (optS r.siren)
  let denom := pyStrOr (optS r.denomination) (pyStrOr (optS r.nom_complet) (optS r.nom))
  let adresse := pyStrOr (optS r.adresse) (optS r.adresse_complete)
  let ville := pyStrOr (optS r.ville) (optS r.commune)
  { siren := siren
    denomination := denom
    adresse := adresse
    ville := ville
    full_addr := pyStrOr adresse s!"{denom} {cp} {ville}" }

/-- The `rows` loop of the handler: a raw result contributes a row exactly
when its SIREN, reduced to digits, has length 9 (`if len(siren) != 9:
continue`). -/
def buildRows (cp : String) : List RawResult → List Row
  | [] => []
  | r :: rest =>
    if (only_digits (optS r.siren)).length = 9 then
      mkRow cp r :: buildRows cp rest
    else
      buildRows cp rest

/-- `pd.DataFrame(rows).drop_duplicates(subset=["siren"])`: keep the first
row for each SIREN (`seen` accumulates the SIRENs already kept). -/
def dedupBySiren (seen : List String) : List Row → List Row
  | [] => []
  | r :: rest =>
    if r.siren ∈ seen then
      dedupBySiren seen rest
    else
      r :: dedupBySiren (r.siren :: seen) rest

/-- `math.radians`. -/
noncomputable def radians (x : ℝ) : ℝ :=
  x * Real.pi / 180

/-- `haversine_km` of `app.py`, over real numbers. -/
noncomputable def haversine_km (lat1 lon1 lat2 lon2 : ℝ) : ℝ :=
  let R : ℝ := 6371
  let p1 := radians lat1
  let p2 := radians lat2
  let dphi := radians (lat2 - lat1)
  let dl := radians (lon2 - lon1)
  let a := Real.sin (dphi / 2) ^ 2 +
    Real.cos p1 * Real.cos p2 * Real.sin (dl / 2) ^ 2
  2 * R * Real.arcsin (Real.sqrt a)

/-- A row annotated by the geocoding loop: its `lat`/`lon` columns and the
`distance_km` column. -/
structure RankedRow where
  row : Row
  lat : Option ℝ
  lon : Option ℝ
  distance_km : ℝ

/-- One iteration of the geocoding loop of the handler: look the row's
`full_addr` up through `geocode_addr` (the oracle `geo`, `none` standing
for the `(None, None)` no-feature outcome), and compute
`haversine_km(lat, lon, la, lo)` or substitute the `10**9` sentinel. -/
noncomputable def annotate (geo : String → Option (ℝ × ℝ)) (qlat qlon : ℝ)
    (r : Row) : RankedRow :=
  match geo r.full_addr with
  | some (la, lo) =>
    { row := r, lat := some la, lon := some lo
      distance_km := haversine_km qlat qlon la lo }
  | none =>
    { row := r, lat := none, lon := none, distance_km := 10 ^ 9 }

/-- The sort key of `df.sort_values("distance_km")`. -/
def distLe (a b : RankedRow) : Prop :=
  a.distance_km ≤ b.distance_km

noncomputable instance : DecidableRel distLe :=
  fun a b => Real.decidableLE a.distance_km b.distance_km

/-- The ranked output of the handler: deduplicate by SIREN, annotate each
row with coordinates and distance, sort ascending by `distance_km`, keep
the first 10 (`df.sort_values("distance_km").head(10)`). -/
noncomputable def rankRows (geo : String → Option (ℝ × ℝ)) (qlat qlon : ℝ)
    (rows : List Row) : List RankedRow :=
  (List.insertionSort distLe
    ((dedupBySiren [] rows).map (annotate geo qlat qlon))).take 10

/-!  ZIP assembly (`build_zip_inpi`). -/

/-- One entry of the `bilans` list of an attachments response, with the
fields `build_zip_inpi` reads. -/
structure Bilan where
  deleted : Option Bool
  id : Option String
  dateCloture : Option String
  dateDepot : Option String
  confidentiality : Option String
deriving DecidableEq

/-- An attachments response as read by `build_zip_inpi`
(`att.get("bilans") or []`). -/
structure AttDict where
  bilans : Option (List Bilan)
deriving DecidableEq

/-- One element of `selected_rows`: a SIREN and its display name. -/
structure SelEntry where
  siren : String
  denomination : Option String
deriving DecidableEq

/-- The datum written for one name inside the ZIP: PDF bytes or a
diagnostic/placeholder text. -/
inductive ZData where
  | pdf (bytes : List Nat)
  | text (s : String)
deriving DecidableEq

/-- The outcomes of the two INPI calls `build_zip_inpi` performs, per
SIREN and per bilan id (standing for `inpi_get_attachments` and
`inpi_download_bilan_pdf`, whose token handling is modelled separately). -/
structure ZipEnv where
  att : String → Except String AttDict
  dl : String → Except String (List Nat)

/-- The sanitized display name: `(ent.get("denomination") or
"entreprise").replace("/", "-").replace("\\", "-")[:80]`. -/
def sanitizeName (denomination : Option String) : String :=
  (((pyOrOpt denomination "entreprise").replace "/" "-").replace "\\" "-").take 80

/-- The per-company directory name `f"{siren}_{name}"`. -/
def companyFolder (ent : SelEntry) : String :=
  s!"{ent.siren}_{sanitizeName ent.denomination}"

/-- The PDF file name built for one bilan, mirroring the `or` defaults and
the space/slash replacements of `app.py`. -/
def bilanFilename (b : Bilan) : String :=
  let dc := pyOrOpt b.dateCloture "date_inconnue"
  let dd := pyOrOpt b.dateDepot "depot_inconnu"
  let conf := pyOrOpt b.confidentiality "Unknown"
  ((s!"bilan_{dc}_depot_{dd}_{conf}.pdf").replace " " "_").replace "/" "-"

/-- The `for b in bilans:` loop of `build_zip_inpi`: skip deleted entries
and entries with a blank id; download each remaining bilan, writing the
PDF on success and an `ERREUR_{id}.txt` diagnostic on failure. Returns
the entries written and `count_ok`. -/
def processBilans (env : ZipEnv) (folder : String) :
    List Bilan → List (String × ZData) × Nat
  | [] => ([], 0)
  | b :: rest =>
    let tail := processBilans env folder rest
    if b.deleted = some true then
      tail
    else
      let bid := pyStrip (optS b.id)
      if bid = "" then
        tail
      else
        match env.dl bid with
        | .ok bytes =>
          ((s!"{folder}/{bilanFilename b}", ZData.pdf bytes) :: tail.1, tail.2 + 1)
        | .error e =>
          ((s!"{folder}/ERREUR_{bid}.txt",
            ZData.text s!"Erreur download bilan: {e}\n") :: tail.1, tail.2)

/-- The entries `build_zip_inpi` writes for one selected company: a
diagnostic `README_erreur.txt` when the attachments call fails, a
placeholder `README.txt` when there is no bilan or when no PDF could be
downloaded, and the downloaded PDFs otherwise. -/
def companyEntries (env : ZipEnv) (ent : SelEntry) : List (String × ZData) :=
  let folder := companyFolder ent
  match env.att ent.siren with
  | .error e =>
    [(s!"{folder}/README_erreur.txt", ZData.text s!"Erreur attachments INPI: {e}\n")]
  | .ok att =>
    let bilans := att.bilans.getD []
    if bilans = [] then
      [(s!"{folder}/README.txt",
        ZData.text "Aucun bilan trouvé (attachements.bilans vide).\n")]
    else
      let res := processBilans env folder bilans
      if res.2 = 0 then
        res.1 ++ [(s!"{folder}/README.txt",
          ZData.text "Bilans présents mais aucun PDF téléchargé (erreurs/accès/confidentialité).\n")]
      else
        res.1

/-- `build_zip_inpi` of `app.py`: the archive contents, company by
company, in write order. -/
def build_zip_inpi (env : ZipEnv) : List SelEntry → List (String × ZData)
  | [] => []
  | ent :: rest => companyEntries env ent ++ build_zip_inpi env rest

/-!  Helper lemmas about the retry layer. -/

theorem isErr_iff {α : Type} {x : Except String α} :
    isErr x = true ↔ ∃ e, x = Except.error e := by
  cases x <;> simp [isErr]

theorem retryGo_err_step {α : Type} (f : Nat → Except String α) (a left : Nat)
    (e : String) (h : f a = Except.error e) :
    retryGo f a (left + 2) =
      ((retryGo f (a + 1) (left + 1)).1, (retryGo f (a + 1) (left + 1)).2.1,
        waitExp 1 1 10 a :: (retryGo f (a + 1) (left + 1)).2.2) := by
  simp [retryGo, h]

theorem retryGo_attempt_bounds {α : Type} (f : Nat → Except String α) :
    ∀ n a, a ≤ (retryGo f a (n + 1)).2.1 ∧ (retryGo f a (n + 1)).2.1 ≤ a + n := by
  intro n
  induction n with
  | zero => intro a; exact ⟨le_refl a, Nat.le_add_right a 0⟩
  | succ m ih =>
    intro a
    show a ≤ (retryGo f a (m + 2)).2.1 ∧ (retryGo f a (m + 2)).2.1 ≤ a + (m + 1)
    cases hf : f a with
    | ok v => simp [retryGo, hf]
    | error e =>
      have step := retryGo_err_step f a m e hf
      have hih := ih (a + 1)
      rw [step]
      constructor
      · exact le_trans (Nat.le_succ a) hih.1
      · calc (retryGo f (a + 1) (m + 1)).2.1 ≤ a + 1 + m := hih.2
          _ = a + (m + 1) := by omega

theorem tenacity4_of_three_failures {α : Type} (f : Nat → Except String α)
    (h1 : isErr (f 1) = true) (h2 : isErr (f 2) = true) (h3 : isErr (f 3) = true) :
    tenacity4 f =
      (f 4, 4, [waitExp 1 1 10 1, waitExp 1 1 10 2, waitExp 1 1 10 3]) := by
  obtain ⟨e1, he1⟩ := isErr_iff.mp h1
  obtain ⟨e2, he2⟩ := isErr_iff.mp h2
  obtain ⟨e3, he3⟩ := isErr_iff.mp h3
  have s1 : retryGo f 4 1 = (f 4, 4, []) := rfl
  have s2 : retryGo f 3 2 = ((retryGo f 4 1).1, (retryGo f 4 1).2.1,
      waitExp 1 1 10 3 :: (retryGo f 4 1).2.2) := by
    simpa using retryGo_err_step f 3 0 e3 he3
  have s3 : retryGo f 2 3 = ((retryGo f 3 2).1, (retryGo f 3 2).2.1,
      waitExp 1 1 10 2 :: (retryGo f 3 2).2.2) := by
    simpa using retryGo_err_step f 2 1 e2 he2
  have s4 : retryGo f 1 4 = ((retryGo f 2 3).1, (retryGo f 2 3).2.1,
      waitExp 1 1 10 1 :: (retryGo f 2 3).2.2) := by
    simpa using retryGo_err_step f 1 2 e1 he1
  show retryGo f 1 4 = _
  rw [s4, s3, s2, s1]

theorem waitExp_bounds_mono (k : Nat) :
    1 ≤ waitExp 1 1 10 k ∧ waitExp 1 1 10 k ≤ 10 ∧
      waitExp 1 1 10 k ≤ waitExp 1 1 10 (k + 1) := by
  refine ⟨?_, ?_, ?_⟩
  · have : (1 : ℚ) ≤ max 0 1 := by norm_num
    exact le_trans this (le_max_left _ _)
  · refine max_le (by norm_num) ?_
    exact le_trans (min_le_right _ _) (le_refl _)
  · refine max_le_max (le_refl _) ?_
    refine min_le_min ?_ (le_refl _)
    have h2 : (2 : ℚ) ^ k ≤ 2 ^ (k + 1) := by
      refine pow_le_pow_right₀ (by norm_num) (Nat.le_succ k)
    simpa using h2

/-- C7: every fetcher call (`get_json`, `post_json`, `download_bytes`) is
retried automatically up to 4 attempts total on connection-level failures
and on HTTP statuses 429/500/502/503/504; the back-off delay between
attempts grows exponentially and stays between the minimum (1s) and
maximum (10s) wait; and when the first three attempts fail, the outcome of
the 4th attempt — in particular its error, when it also fails — is exactly
what the caller receives. -/
theorem fetchers_retry_four_attempts_bounded_backoff :
    (∀ (url params : String) (net : Nat → Except String HttpResponse),
      isErr (get_json_body url params (net 1)) = true →
      isErr (get_json_body url params (net 2)) = true →
      isErr (get_json_body url params (net 3)) = true →
      get_json url params net =
        (get_json_body url params (net 4), 4,
          [waitExp 1 1 10 1, waitExp 1 1 10 2, waitExp 1 1 10 3])) ∧
    (∀ (url : String) (net : Nat → Except String HttpResponse),
      isErr (post_json_body url (net 1)) = true →
      isErr (post_json_body url (net 2)) = true →
      isErr (post_json_body url (net 3)) = true →
      post_json url net =
        (post_json_body url (net 4), 4,
          [waitExp 1 1 10 1, waitExp 1 1 10 2, waitExp 1 1 10 3])) ∧
    (∀ (url : String) (net : Nat → Except String HttpResponse),
      isErr (download_bytes_body url (net 1)) = true →
      isErr (download_bytes_body url (net 2)) = true →
      isErr (download_bytes_body url (net 3)) = true →
      download_bytes url net =
        (download_bytes_body url (net 4), 4,
          [waitExp 1 1 10 1, waitExp 1 1 10 2, waitExp 1 1 10 3])) ∧
    (∀ (url params : String) (r : HttpResponse), r.status ∈ transientStatuses →
      isErr (get_json_body url params (Except.ok r)) = true) ∧
    (∀ (url : String) (r : HttpResponse), r.status ∈ transientStatuses →
      isErr (post_json_body url (Except.ok r)) = true) ∧
    (∀ (url : String) (r : HttpResponse), r.status ∈ transientStatuses →
      isErr (download_bytes_body url (Except.ok r)) = true) ∧
    (∀ (url params e : String),
      get_json_body url params (Except.error e) = Except.error e ∧
      post_json_body url (Except.error e) = Except.error e ∧
      download_bytes_body url (Except.error e) = Except.error e) ∧
    (∀ (α : Type) (f : Nat → Except String α),
      1 ≤ (tenacity4 f).2.1 ∧ (tenacity4 f).2.1 ≤ 4) ∧
    (∀ k : Nat, 1 ≤ waitExp 1 1 10 k ∧ waitExp 1 1 10 k ≤ 10 ∧
      waitExp 1 1 10 k ≤ waitExp 1 1 10 (k + 1)) := by
  refine ⟨?_, ?_, ?_, ?_, ?_, ?_, ?_, ?_, waitExp_bounds_mono⟩
  · intro url params net h1 h2 h3
    exact tenacity4_of_three_failures _ h1 h2 h3
  · intro url net h1 h2 h3
    exact tenacity4_of_three_failures _ h1 h2 h3
  · intro url net h1 h2 h3
    exact tenacity4_of_three_failures _ h1 h2 h3
  · intro url params r h
    simp [get_json_body, h, isErr]
  · intro url r h
    simp [post_json_body, h, isErr]
  · intro url r h
    simp [download_bytes_body, h, isErr]
  · intro url params e
    exact ⟨rfl, rfl, rfl⟩
  · intro α f
    have hb := retryGo_attempt_bounds f 3 1
    exact ⟨hb.1, hb.2⟩

/-- A network oracle answering HTTP 503 (service unavailable, no JSON
body) on every attempt. -/
def net503 : Nat → Except String HttpResponse :=
  fun _ => Except.ok ⟨503, false, none, "down", []⟩

theorem fetchers_retry_four_attempts_bounded_backoff_witness :
    get_json "https://recherche-entreprises.api.gouv.fr/search" "cp" net503 =
      (get_json_body "https://recherche-entreprises.api.gouv.fr/search" "cp" (net503 4),
        4, [waitExp 1 1 10 1, waitExp 1 1 10 2, waitExp 1 1 10 3]) :=
  fetchers_retry_four_attempts_bounded_backoff.1
    "https://recherche-entreprises.api.gouv.fr/search" "cp" net503
    (by decide) (by decide) (by decide)

/-- A network oracle whose first attempt yields a non-transient HTTP 404
and whose later attempts yield HTTP 200 with a JSON body. -/
def net404then200 : Nat → Except String HttpResponse :=
  fun k =>
    if k ≤ 1 then Except.ok ⟨404, true, some "detail: not found", "not found", []⟩
    else Except.ok ⟨200, true, some "results", "results", []⟩

/-- C1: the claim states that a non-transient HTTP status ≥ 400 (outside
the set {429, 500, 502, 503, 504}) makes `get_json` fail immediately,
without any further retry attempt. The code violates this: the
`tenacity.retry` decorator retries on *every* exception (its default
retry predicate), and the non-transient branch raises a `RuntimeError`
just like the transient one, so a 404 on attempt 1 is retried — here the
call returns the attempt-2 payload after one back-off sleep instead of
failing. (The code's own messages distinguish "Transient HTTP" from
"HTTP", which only makes sense if the non-transient branch were not
retried, so the claim matches the intent and the code is the slip.) -/
theorem get_json_retries_past_non_transient_error :
    get_json "https://recherche-entreprises.api.gouv.fr/search" "cp" net404then200 =
      (Except.ok "results", 2, [waitExp 1 1 10 1]) := by
  rfl

/-- C2: an authenticated INPI call (attachment listing or PDF download)
made with a cached (non-falsy) token that fails with an error marked
`HTTP 401` triggers exactly one automatic re-authentication — the cached
token is cleared and one fresh login is performed — followed by exactly
one retry of the original call with the fresh token; whatever that retried
call returns (in particular a second 401 error) is propagated unchanged,
with no further login and no further fetch. -/
theorem inpi_auth_single_refresh_then_retry (env : AuthEnv) (w : World)
    (t tNew : String)
    (hcache : w.session.inpi_token = some t) (hne : ¬ t = "")
    (hlogin : env.login w.logins = Except.ok tNew) :
    (∀ e, env.fetchAtt w.fetches t = Except.error e →
      strContains "HTTP 401" e = true →
      inpi_get_attachments env w =
        (env.fetchAtt (w.fetches + 1) tNew,
          ⟨⟨some tNew⟩, w.logins + 1, w.fetches + 2⟩)) ∧
    (∀ e, env.fetchPdf w.fetches t = Except.error e →
      (strContains "HTTP 401" e || strContains "Download HTTP 401" e) = true →
      inpi_download_bilan_pdf env w =
        (env.fetchPdf (w.fetches + 1) tNew,
          ⟨⟨some tNew⟩, w.logins + 1, w.fetches + 2⟩)) := by
  obtain ⟨⟨tok⟩, logins, fetches⟩ := w
  simp only [Session.mk.injEq] at hcache
  subst hcache
  constructor
  · intro e hfetch h401
    simp [inpi_get_attachments, tryFetchAtt, get_inpi_token, hne, hfetch, h401,
      hlogin]
  · intro e hfetch h401
    simp [inpi_download_bilan_pdf, tryFetchPdf, get_inpi_token, hne, hfetch, h401,
      hlogin]

/-- A concrete INPI environment: the first token is expired (every call
made with it yields a 401), the re-login hands out a fresh token with
which calls succeed. -/
def authEnvW : AuthEnv :=
  { login := fun _ => Except.ok "token-2"
    fetchAtt := fun _ tok =>
      if tok = "token-1" then
        Except.error "HTTP 401 on https://rne/api/companies/123456789/attachments params=None body=expired"
      else Except.ok "attachments"
    fetchPdf := fun _ tok =>
      if tok = "token-1" then
        Except.error "Download HTTP 401 for https://rne/api/bilans/b1/download body=expired"
      else Except.ok [37, 80, 68, 70] }

theorem inpi_auth_single_refresh_then_retry_witness :
    inpi_get_attachments authEnvW ⟨⟨some "token-1"⟩, 0, 0⟩ =
      (authEnvW.fetchAtt 1 "token-2", ⟨⟨some "token-2"⟩, 1, 2⟩) ∧
    inpi_download_bilan_pdf authEnvW ⟨⟨some "token-1"⟩, 0, 0⟩ =
      (authEnvW.fetchPdf 1 "token-2", ⟨⟨some "token-2"⟩, 1, 2⟩) := by
  have h := inpi_auth_single_refresh_then_retry authEnvW ⟨⟨some "token-1"⟩, 0, 0⟩
    "token-1" "token-2" rfl (by decide) rfl
  exact ⟨h.1 _ rfl (by decide), h.2 _ rfl (by decide)⟩

/-- When every bilan of the list is filtered out (deleted, or with a blank
id), the download loop writes nothing and `count_ok` stays 0. -/
theorem processBilans_all_filtered (env : ZipEnv) (folder : String) :
    ∀ l : List Bilan, (∀ b ∈ l, b.deleted = some true ∨ pyStrip (optS b.id) = "") →
      processBilans env folder l = ([], 0) := by
  intro l
  induction l with
  | nil => intro _; rfl
  | cons b rest ih =>
    intro h
    have hrest := ih fun x hx => h x (List.mem_cons_of_mem b hx)
    rcases h b (List.mem_cons_self b rest) with hdel | hid
    · simp [processBilans, hdel, hrest]
    · by_cases hdel : b.deleted = some true
      · simp [processBilans, hdel, hrest]
      · simp [processBilans, hdel, hid, hrest]

/-- C3: ZIP assembly isolates failures. (1) Each selected company's
entries are written independently and processing always continues with the
remaining companies; (2) a failed attachment-listing call produces a
single `README_erreur.txt` diagnostic entry in the company's directory and
the batch goes on; (3) a failed individual PDF download produces an
`ERREUR_{id}.txt` diagnostic entry in place of the PDF and the loop goes
on with the remaining bilans; (4) a company whose filtered statement list
is empty gets an explanatory `README.txt` placeholder instead of a PDF. -/
theorem build_zip_failures_isolated :
    (∀ (env : ZipEnv) (ent : SelEntry) (rest : List SelEntry),
      build_zip_inpi env (ent :: rest) =
        companyEntries env ent ++ build_zip_inpi env rest) ∧
    (∀ (env : ZipEnv) (ent : SelEntry) (rest : List SelEntry) (e : String),
      env.att ent.siren = Except.error e →
      build_zip_inpi env (ent :: rest) =
        (s!"{companyFolder ent}/README_erreur.txt",
          ZData.text s!"Erreur attachments INPI: {e}\n") ::
          build_zip_inpi env rest) ∧
    (∀ (env : ZipEnv) (folder : String) (b : Bilan) (rest : List Bilan) (e : String),
      ¬ b.deleted = some true → ¬ pyStrip (optS b.id) = "" →
      env.dl (pyStrip (optS b.id)) = Except.error e →
      processBilans env folder (b :: rest) =
        ((s!"{folder}/ERREUR_{pyStrip (optS b.id)}.txt",
          ZData.text s!"Erreur download bilan: {e}\n") ::
            (processBilans env folder rest).1,
          (processBilans env folder rest).2)) ∧
    (∀ (env : ZipEnv) (ent : SelEntry) (att : AttDict),
      env.att ent.siren = Except.ok att →
      (∀ b ∈ att.bilans.getD [], b.deleted = some true ∨ pyStrip (optS b.id) = "") →
      ∃ txt, companyEntries env ent =
        [(s!"{companyFolder ent}/README.txt", ZData.text txt)]) := by
  refine ⟨fun env ent rest => rfl, ?_, ?_, ?_⟩
  · intro env ent rest e h
    simp [build_zip_inpi, companyEntries, h]
  · intro env folder b rest e hdel hid hdl
    simp [processBilans, hdel, hid, hdl]
  · intro env ent att hatt hfiltered
    by_cases hnil : att.bilans.getD [] = []
    · exact ⟨"Aucun bilan trouvé (attachements.bilans vide).\n",
        by simp [companyEntries, hatt, hnil]⟩
    · refine ⟨"Bilans présents mais aucun PDF téléchargé (erreurs/accès/confidentialité).\n", ?_⟩
      simp [companyEntries, hatt, hnil,
        processBilans_all_filtered env (companyFolder ent) _ hfiltered]

/-- A concrete ZIP environment in which the attachment listing fails for
one SIREN and succeeds for another, and every PDF download fails. -/
def zipEnvW : ZipEnv :=
  { att := fun siren =>
      if siren = "111222333" then Except.error "HTTP 500 on attachments"
      else Except.ok ⟨some [⟨none, some "b1", some "2022-12-31", some "2023-05-01", some "Public"⟩]⟩
    dl := fun _ => Except.error "Download HTTP 403 for bilan" }

/-- The two companies selected in the concrete ZIP scenario. -/
def selW1 : SelEntry := ⟨"111222333", some "ACME"⟩

def selW2 : SelEntry := ⟨"123456789", some "B"⟩

theorem build_zip_failures_isolated_witness :
    build_zip_inpi zipEnvW [selW1, selW2] =
      (s!"{companyFolder selW1}/README_erreur.txt",
        ZData.text s!"Erreur attachments INPI: HTTP 500 on attachments\n") ::
        build_zip_inpi zipEnvW [selW2] := by
  exact build_zip_failures_isolated.2.1 zipEnvW selW1 [selW2]
    "HTTP 500 on attachments" rfl

/-- C8: with a missing INPI username or password, the login refuses to
proceed before any network call — zero `post_json` invocations — with the
specific message naming the missing secrets, and the ZIP-download button
is disabled. -/
theorem missing_inpi_credentials_fail_fast (username password : String)
    (post : Unit → Except String LoginResp) (numSelected : Nat)
    (h : username = "" ∨ password = "") :
    (inpi_login username password post).1 =
      Except.error "Secrets INPI manquants : INPI_USERNAME / INPI_PASSWORD" ∧
    (inpi_login username password post).2 = 0 ∧
    dl_disabled numSelected username password = true := by
  refine ⟨?_, ?_, ?_⟩
  · simp [inpi_login, h]
  · simp [inpi_login, h]
  · rcases h with h | h <;> simp [dl_disabled, h]

theorem missing_inpi_credentials_fail_fast_witness :
    (inpi_login "" "secret" (fun _ => Except.ok ⟨some "tok"⟩)).1 =
      Except.error "Secrets INPI manquants : INPI_USERNAME / INPI_PASSWORD" ∧
    (inpi_login "" "secret" (fun _ => Except.ok ⟨some "tok"⟩)).2 = 0 ∧
    dl_disabled 3 "" "secret" = true :=
  missing_inpi_credentials_fail_fast "" "secret" (fun _ => Except.ok ⟨some "tok"⟩) 3
    (Or.inl rfl)

/-- C9: a requested page size above 25 is silently clamped to 25 before
the request is sent — the search proceeds (with the clamped value in the
sent parameters) instead of failing. -/
theorem search_per_page_clamped (net : SearchParams → Except String String)
    (code_postal code_naf : String) (per_page page : Int)
    (h : 25 < per_page) :
    (search_params code_postal code_naf per_page page).per_page = 25 ∧
    search_companies_by_cp net code_postal code_naf per_page page =
      net { code_postal := code_postal, page := page, per_page := 25,
            code_naf := if code_naf = "" then none else some code_naf } := by
  have hmin : min per_page 25 = 25 := min_eq_right (le_of_lt h)
  constructor
  · simp [search_params, hmin]
  · simp [search_companies_by_cp, search_params, hmin]

theorem search_per_page_clamped_witness :
    (search_params "35000" "56.10A" 30 1).per_page = 25 ∧
    search_companies_by_cp (fun p => Except.ok (toString p.per_page)) "35000" "56.10A" 30 1 =
      (fun p : SearchParams => Except.ok (toString p.per_page))
        { code_postal := "35000", page := 1, per_page := 25,
          code_naf := if "56.10A" = "" then none else some "56.10A" } :=
  search_per_page_clamped (fun p => Except.ok (toString p.per_page)) "35000" "56.10A"
    30 1 (by norm_num)

/-- C4: a raw search-result entry contributes a candidate row exactly when
stripping all non-digit characters from its identifier field yields a
string of exactly 9 digits. The whole candidate set is the image of the
entries passing that test; conversely, an individual entry's row appears
in the candidate set if and only if its identifier reduces to 9 digits. -/
theorem candidate_included_iff_nine_digit_siren :
    (∀ (cp : String) (results : List RawResult),
      buildRows cp results =
        (results.filter fun r =>
          (only_digits (optS r.siren)).length == 9).map (mkRow cp)) ∧
    (∀ (cp : String) (results : List RawResult) (r : RawResult), r ∈ results →
      ((only_digits (optS r.siren)).length = 9 ↔
        mkRow cp r ∈ buildRows cp results)) := by
  have hmap : ∀ (cp : String) (results : List RawResult),
      buildRows cp results =
        (results.filter fun r =>
          (only_digits (optS r.siren)).length == 9).map (mkRow cp) := by
    intro cp results
    induction results with
    | nil => rfl
    | cons r rest ih =>
      by_cases h : (only_digits (optS r.siren)).length = 9
      · simp [buildRows, h, ih]
      · simp [buildRows, h, ih]
  refine ⟨hmap, ?_⟩
  intro cp results r hmem
  constructor
  · intro h9
    rw [hmap]
    exact List.mem_map_of_mem (mkRow cp)
      (List.mem_filter.mpr ⟨hmem, by simpa using h9⟩)
  · intro hrow
    rw [hmap] at hrow
    obtain ⟨r', hr', heq⟩ := List.mem_map.mp hrow
    have h9 : (only_digits (optS r'.siren)).length = 9 := by
      simpa using (List.mem_filter.mp hr').2
    have hsiren : (mkRow cp r').siren = (mkRow cp r).siren := by rw [heq]
    have h1 : (mkRow cp r').siren = only_digits (optS r'.siren) := rfl
    have h2 : (mkRow cp r).siren = only_digits (optS r.siren) := rfl
    rw [h1, h2] at hsiren
    rw [← hsiren]
    exact h9

/-- A raw search entry whose identifier carries spaces around nine
digits. -/
def rawW : RawResult :=
  ⟨some " 123 456 789 ", none, some "ACME", none, none, none, some "Rennes", none⟩

theorem candidate_included_iff_nine_digit_siren_witness :
    mkRow "35000" rawW ∈ buildRows "35000" [rawW] :=
  (candidate_included_iff_nine_digit_siren.2 "35000" [rawW] rawW
    (List.mem_singleton.mpr rfl)).mp (by decide)

/-!  Helper lemmas about the distance and ranking pipeline. -/

theorem haversine_km_eq (lat1 lon1 lat2 lon2 : ℝ) :
    haversine_km lat1 lon1 lat2 lon2 =
      2 * 6371 * Real.arcsin (Real.sqrt
        (Real.sin (radians (lat2 - lat1) / 2) ^ 2 +
          Real.cos (radians lat1) * Real.cos (radians lat2) *
            Real.sin (radians (lon2 - lon1) / 2) ^ 2)) := rfl

theorem haversine_km_nonneg (lat1 lon1 lat2 lon2 : ℝ) :
    0 ≤ haversine_km lat1 lon1 lat2 lon2 := by
  rw [haversine_km_eq]
  exact mul_nonneg (by norm_num) (Real.arcsin_nonneg.mpr (Real.sqrt_nonneg _))

theorem haversine_km_le_pi_radius (lat1 lon1 lat2 lon2 : ℝ) :
    haversine_km lat1 lon1 lat2 lon2 ≤ Real.pi * 6371 := by
  rw [haversine_km_eq]
  have h := Real.arcsin_le_pi_div_two (Real.sqrt
    (Real.sin (radians (lat2 - lat1) / 2) ^ 2 +
      Real.cos (radians lat1) * Real.cos (radians lat2) *
        Real.sin (radians (lon2 - lon1) / 2) ^ 2))
  nlinarith [h]

theorem haversine_km_lt_sentinel (lat1 lon1 lat2 lon2 : ℝ) :
    haversine_km lat1 lon1 lat2 lon2 < 10 ^ 9 := by
  have h1 := haversine_km_le_pi_radius lat1 lon1 lat2 lon2
  have h2 : Real.pi * 6371 ≤ 4 * 6371 :=
    mul_le_mul_of_nonneg_right Real.pi_le_four (by norm_num)
  have h3 : (4 : ℝ) * 6371 < 10 ^ 9 := by norm_num
  linarith

theorem haversine_km_symm (lat1 lon1 lat2 lon2 : ℝ) :
    haversine_km lat1 lon1 lat2 lon2 = haversine_km lat2 lon2 lat1 lon1 := by
  rw [haversine_km_eq, haversine_km_eq]
  have h1 : radians (lat1 - lat2) / 2 = -(radians (lat2 - lat1) / 2) := by
    unfold radians; ring
  have h2 : radians (lon1 - lon2) / 2 = -(radians (lon2 - lon1) / 2) := by
    unfold radians; ring
  rw [h1, h2, Real.sin_neg, Real.sin_neg]
  ring_nf

theorem haversine_km_self (lat lon : ℝ) : haversine_km lat lon lat lon = 0 := by
  rw [haversine_km_eq]
  simp [radians]

theorem annotate_row (geo : String → Option (ℝ × ℝ)) (qlat qlon : ℝ) (r : Row) :
    (annotate geo qlat qlon r).row = r := by
  unfold annotate
  cases h : geo r.full_addr with
  | none => rfl
  | some p =>
    obtain ⟨la, lo⟩ := p
    rfl

theorem annotate_geo_none (geo : String → Option (ℝ × ℝ)) (qlat qlon : ℝ) (r : Row)
    (h : geo r.full_addr = none) :
    (annotate geo qlat qlon r).lat = none ∧
      (annotate geo qlat qlon r).distance_km = 10 ^ 9 := by
  unfold annotate
  rw [h]
  exact ⟨rfl, rfl⟩

theorem annotate_geo_some (geo : String → Option (ℝ × ℝ)) (qlat qlon : ℝ) (r : Row)
    (la lo : ℝ) (h : geo r.full_addr = some (la, lo)) :
    (annotate geo qlat qlon r).lat = some la ∧
      (annotate geo qlat qlon r).distance_km = haversine_km qlat qlon la lo := by
  unfold annotate
  rw [h]
  exact ⟨rfl, rfl⟩

theorem annotate_lat_distance (geo : String → Option (ℝ × ℝ)) (qlat qlon : ℝ)
    (r : Row) :
    ((annotate geo qlat qlon r).lat = none →
      (annotate geo qlat qlon r).distance_km = 10 ^ 9) ∧
    (¬ (annotate geo qlat qlon r).lat = none →
      (annotate geo qlat qlon r).distance_km < 10 ^ 9) := by
  cases h : geo r.full_addr with
  | none =>
    have ha := annotate_geo_none geo qlat qlon r h
    exact ⟨fun _ => ha.2, fun hne => absurd ha.1 hne⟩
  | some p =>
    obtain ⟨la, lo⟩ := p
    have ha := annotate_geo_some geo qlat qlon r la lo h
    constructor
    · intro hl
      rw [ha.1] at hl
      cases hl
    · intro _
      rw [ha.2]
      exact haversine_km_lt_sentinel qlat qlon la lo

instance : IsTotal RankedRow distLe :=
  ⟨fun a b => le_total a.distance_km b.distance_km⟩

instance : IsTrans RankedRow distLe :=
  ⟨fun _ _ _ hab hbc => le_trans hab hbc⟩

theorem rankRows_sorted (geo : String → Option (ℝ × ℝ)) (qlat qlon : ℝ)
    (rows : List Row) : (rankRows geo qlat qlon rows).Sorted distLe := by
  unfold rankRows
  exact (List.sorted_insertionSort distLe _).sublist (List.take_sublist _ _)

theorem mem_rankRows_annotate {geo : String → Option (ℝ × ℝ)} {qlat qlon : ℝ}
    {rows : List Row} {rr : RankedRow} (h : rr ∈ rankRows geo qlat qlon rows) :
    ∃ r : Row, rr = annotate geo qlat qlon r := by
  unfold rankRows at h
  have h1 := (List.take_sublist _ _).subset h
  have h2 := (List.perm_insertionSort distLe _).subset h1
  obtain ⟨r, _, heq⟩ := List.mem_map.mp h2
  exact ⟨r, heq.symm⟩

theorem dedupBySiren_sirens_nodup :
    ∀ (rows : List Row) (seen : List String),
      ((dedupBySiren seen rows).map fun r => r.siren).Nodup ∧
      ∀ s ∈ seen, s ∉ (dedupBySiren seen rows).map fun r => r.siren := by
  intro rows
  induction rows with
  | nil => intro seen; simp [dedupBySiren]
  | cons r rest ih =>
    intro seen
    by_cases h : r.siren ∈ seen
    · simp only [dedupBySiren, if_pos h]
      exact ih seen
    · simp only [dedupBySiren, if_neg h]
      have ihS := ih (r.siren :: seen)
      constructor
      · simp only [List.map_cons, List.nodup_cons]
        exact ⟨ihS.2 r.siren (List.mem_cons_self _ _), ihS.1⟩
      · intro s hs hcon
        rcases List.mem_cons.mp hcon with heq | hmem
        · subst heq
          exact h hs
        · exact ihS.2 s (List.mem_cons_of_mem _ hs) hmem

/-- C5: for every candidate set, the ranked output has at most 10
entries, at most one entry per SIREN (deduplication by identifier), and
is sorted by non-decreasing distance from the query point. -/
theorem ranked_output_cap_dedup_sorted :
    ∀ (geo : String → Option (ℝ × ℝ)) (qlat qlon : ℝ) (rows : List Row),
      (rankRows geo qlat qlon rows).length ≤ 10 ∧
      ((rankRows geo qlat qlon rows).map fun rr => rr.row.siren).Nodup ∧
      (rankRows geo qlat qlon rows).Sorted distLe := by
  intro geo qlat qlon rows
  refine ⟨?_, ?_, rankRows_sorted geo qlat qlon rows⟩
  · unfold rankRows
    rw [List.length_take]
    exact min_le_left _ _
  · unfold rankRows
    have hmm : ((dedupBySiren [] rows).map (annotate geo qlat qlon)).map
        (fun rr => rr.row.siren) = (dedupBySiren [] rows).map fun r => r.siren := by
      rw [List.map_map]
      exact List.map_congr_left fun r _ => by
        simp [Function.comp, annotate_row]
    have hnodup_ann : (((dedupBySiren [] rows).map (annotate geo qlat qlon)).map
        (fun rr => rr.row.siren)).Nodup := by
      rw [hmm]
      exact (dedupBySiren_sirens_nodup rows []).1
    have hperm := (List.perm_insertionSort distLe
      ((dedupBySiren [] rows).map (annotate geo qlat qlon))).map
      (fun rr => rr.row.siren)
    have hnodup_sorted := hperm.nodup_iff.mpr hnodup_ann
    rw [List.map_take]
    exact hnodup_sorted.sublist (List.take_sublist _ _)

/-- C6: a candidate whose address fails to geocode is assigned the
sentinel distance `10 ** 9`; inside the ranked output such entries carry
the sentinel distance while every geocoded entry's distance is strictly
below it, and no ungeocoded entry ever precedes a geocoded one (once an
entry without coordinates appears, everything after it is also without
coordinates) — ungeocoded candidates sort after all resolvable ones. -/
theorem ungeocoded_sentinel_and_sorts_last :
    ∀ (geo : String → Option (ℝ × ℝ)) (qlat qlon : ℝ) (rows : List Row),
      (∀ r : Row, geo r.full_addr = none →
        (annotate geo qlat qlon r).lat = none ∧
        (annotate geo qlat qlon r).distance_km = 10 ^ 9) ∧
      (∀ rr ∈ rankRows geo qlat qlon rows,
        (rr.lat = none → rr.distance_km = 10 ^ 9) ∧
        (¬ rr.lat = none → rr.distance_km < 10 ^ 9)) ∧
      ((rankRows geo qlat qlon rows).Pairwise fun a b =>
        a.lat = none → b.lat = none) := by
  intro geo qlat qlon rows
  have hmem : ∀ rr ∈ rankRows geo qlat qlon rows,
      (rr.lat = none → rr.distance_km = 10 ^ 9) ∧
      (¬ rr.lat = none → rr.distance_km < 10 ^ 9) := by
    intro rr hrr
    obtain ⟨r, rfl⟩ := mem_rankRows_annotate hrr
    exact annotate_lat_distance geo qlat qlon r
  refine ⟨fun r h => annotate_geo_none geo qlat qlon r h, hmem, ?_⟩
  have hsorted := rankRows_sorted geo qlat qlon rows
  refine List.Pairwise.imp_of_mem ?_ hsorted
  intro a b ha hb hab hlatA
  by_contra hbne
  have hA := (hmem a ha).1 hlatA
  have hB := (hmem b hb).2 hbne
  have : (10 : ℝ) ^ 9 ≤ b.distance_km := hA ▸ hab
  linarith

/-- A geocoder that resolves no address at all. -/
def geoNoneW : String → Option (ℝ × ℝ) := fun _ => none

/-- A concrete candidate row. -/
def rowW : Row := ⟨"123456789", "ACME", "", "Rennes", "ACME 35000 Rennes"⟩

theorem ungeocoded_sentinel_and_sorts_last_witness :
    (annotate geoNoneW 48 2 rowW).lat = none ∧
      (annotate geoNoneW 48 2 rowW).distance_km = 10 ^ 9 :=
  (ungeocoded_sentinel_and_sorts_last geoNoneW 48 2 []).1 rowW rfl

/-- C10: for all real latitude/longitude inputs, the haversine distance is
non-negative, bounded above by `π * 6371` km (≈ 20016 km), symmetric in
its two points, zero when the two points coincide, and — in particular —
strictly smaller than the `10 ** 9` sentinel used for ungeocoded
addresses, so sentinel entries always sort last. -/
theorem haversine_bounds_symm_zero_sentinel :
    ∀ lat1 lon1 lat2 lon2 : ℝ,
      0 ≤ haversine_km lat1 lon1 lat2 lon2 ∧
      haversine_km lat1 lon1 lat2 lon2 ≤ Real.pi * 6371 ∧
      haversine_km lat1 lon1 lat2 lon2 = haversine_km lat2 lon2 lat1 lon1 ∧
      haversine_km lat1 lon1 lat1 lon1 = 0 ∧
      haversine_km lat1 lon1 lat2 lon2 < 10 ^ 9 :=
  fun lat1 lon1 lat2 lon2 =>
    ⟨haversine_km_nonneg lat1 lon1 lat2 lon2,
      haversine_km_le_pi_radius lat1 lon1 lat2 lon2,
      haversine_km_symm lat1 lon1 lat2 lon2,
      haversine_km_self lat1 lon1,
      haversine_km_lt_sentinel lat1 lon1 lat2 lon2⟩
